import Mathlib

/-!
Shallow embedding of the AgentGo MCP service (agentgo_mcp_service.py).

The five MCP tools that the claims concern — `get_trustgo_login_message`,
`trustgo_login`, `query_ranked_bubbles`, `login_twitter` and
`verify_twitter_signature` — are translated as pure state-passing
functions.  The two global mutable maps `challenge_storage` and
`auth_tokens` become explicit store arguments (functions from address
strings to optional records), the outcome dict of each tool becomes an
inductive outcome type with one constructor per `return` statement, and
the nondeterministic inputs of the Python code (random operands, current
time, and every upstream HTTP response) become explicit parameters.
-/

namespace AgentGo

/-- The decimal digit characters, as Python string formatting renders them. -/
def digitCh : Nat → Char
  | 0 => '0'
  | 1 => '1'
  | 2 => '2'
  | 3 => '3'
  | 4 => '4'
  | 5 => '5'
  | 6 => '6'
  | 7 => '7'
  | 8 => '8'
  | 9 => '9'
  | _ => '?'

/-- Decimal rendering of a natural number, the embedding of Python
f-string interpolation of a non-negative integer. -/
def natRepr (n : Nat) : String :=
  if n = 0 then "0" else ⟨((Nat.digits 10 n).map digitCh).reverse⟩

/-- The stored login challenge: the keys written by
`get_trustgo_login_message` into `challenge_storage[address]`. -/
structure LoginChallenge where
  expected_answer : Int
  timestamp : Nat
  message : String
  challenge_created : String

/-- The nested `"twitter"` slot written by `login_twitter`; the
`user_screen_name` key is added only by `verify_twitter_signature`. -/
structure TwitterChallenge where
  message : String
  number : Nat
  user_screen_name : Option String

/-- One entry of `challenge_storage`: the login keys and the nested
`"twitter"` key, each possibly absent. -/
structure ChallengeRecord where
  login : Option LoginChallenge
  twitter : Option TwitterChallenge

/-- One entry of `auth_tokens`. -/
structure AuthRecord where
  trustgo_token : Option String
  trustgo_login_time : Option String

/-- The global dict `challenge_storage`, keyed by address. -/
def ChallengeStore := String → Option ChallengeRecord

/-- The global dict `auth_tokens`, keyed by address. -/
def AuthStore := String → Option AuthRecord

/-- An upstream HTTP exchange: either the request raised (caught by the
tool's `except` clause) or a response with a status code and a body. -/
inductive UpstreamCall (β : Type) where
  | exn (msg : String)
  | ok (status : Nat) (body : β)

/-- The JSON body answered by `accounts/check_signed_message`:
`success` is the truthiness of `response_data.get('success')`, `token`
is `response_data.get('data', {}).get('token', '')` (so an absent token
reads as `""`), `message` is `response_data.get('message')`. -/
structure LoginResponseBody where
  success : Bool
  token : String
  message : Option String

/-- A generic JSON body for `agentgo/ranked_bubbles`: its optional
`message` field plus the rest of the payload, kept opaque. -/
structure JsonBody where
  message : Option String
  raw : String

/-- The `author` object of a fetched tweet. -/
structure TweetAuthor where
  screen_name : Option String

/-- The JSON body answered by the tweet lookup. -/
structure TweetData where
  text : Option String
  author : Option TweetAuthor

/-- `address or DEFAULT_ADDRESS`: Python `or` takes the default when the
address is `None` or the empty string. -/
def resolveAddress (address : Option String) (default_address : String) : String :=
  match address with
  | none => default_address
  | some a => if a = "" then default_address else a

/-- The login message text `f"sign the message to login trustgo{timestamp}"`. -/
def loginMessage (timestamp : Nat) : String :=
  "sign the message to login trustgo" ++ natRepr timestamp

/-- The puzzle `expected_answer = (num1 * num2) + (num3 ** 2) - (num1 % num3)`,
over unbounded integers as in Python. -/
def expected_answer (num1 num2 num3 : Nat) : Int :=
  (num1 : Int) * (num2 : Int) + (num3 : Int) ^ 2 - (num1 : Int) % (num3 : Int)

/-- The `formula` string disclosed with the challenge. -/
def formulaString (num1 num2 num3 : Nat) : String :=
  natRepr num1 ++ " * " ++ natRepr num2 ++ " + " ++ natRepr num3 ++ "^2 - (" ++
    natRepr num1 ++ " % " ++ natRepr num3 ++ ")"

/-- The success payload of `get_trustgo_login_message`. -/
structure LoginMessageResult where
  message : String
  description : String
  num1 : Nat
  num2 : Nat
  num3 : Nat
  formula : String
  instructions : String

/-- Outcome of `get_trustgo_login_message`, one constructor per return. -/
inductive GenOutcome where
  | configError
  | genSuccess (r : LoginMessageResult)

/-- The challenge record stored by `get_trustgo_login_message`. -/
def loginChallengeOf (timestamp num1 num2 num3 : Nat) (now_iso : String) : LoginChallenge :=
  { expected_answer := expected_answer num1 num2 num3
    timestamp := timestamp
    message := loginMessage timestamp
    challenge_created := now_iso }

/-- The success payload returned by `get_trustgo_login_message`. -/
def loginMessageResult (timestamp num1 num2 num3 : Nat) : LoginMessageResult :=
  { message := loginMessage timestamp
    description := "Calculate: (num1 * num2) + (num3^2) - (num1 % num3)"
    num1 := num1
    num2 := num2
    num3 := num3
    formula := formulaString num1 num2 num3
    instructions := "Please calculate the result and provide it in the number parameter when calling trustgo_login" }

/-- `get_trustgo_login_message`: the random operands `num1 num2 num3`,
the clock reading `timestamp` and its ISO rendering `now_iso` are passed
in as parameters.  Note that the whole `challenge_storage[user_address]`
dict is replaced, exactly as the assignment in the source does. -/
def get_trustgo_login_message (challenges : ChallengeStore)
    (address : Option String) (default_address : String)
    (timestamp num1 num2 num3 : Nat) (now_iso : String) :
    GenOutcome × ChallengeStore :=
  let user_address := resolveAddress address default_address
  if user_address = "" then
    (.configError, challenges)
  else
    let challenges' : ChallengeStore := fun a =>
      if a = user_address then
        some { login := some (loginChallengeOf timestamp num1 num2 num3 now_iso), twitter := none }
      else challenges a
    (.genSuccess (loginMessageResult timestamp num1 num2 num3), challenges')

/-- Outcome of `trustgo_login`, one constructor per return statement;
`exnError` is the catch-all `except` return (it also absorbs the
`KeyError` raised when the record for the address holds only a
`"twitter"` slot and `challenge["message"]` is read). -/
inductive LoginOutcome where
  | noChallenge
  | challengeMismatch
  | missingNumber
  | incorrectNumber (expected got : Int)
  | signatureRejected (address signature : String)
  | loginSuccess (address token login_message : String)
  | upstreamFailed (msg : String)
  | exnError (msg : String)

/-- `trustgo_login`: local checks against the stored challenge, deletion
of the challenge, then the upstream exchange (whose response is the
parameter `upstream`) and token storage. -/
def trustgo_login (challenges : ChallengeStore) (tokens : AuthStore)
    (address signature message : String) (number : Option Int)
    (upstream : UpstreamCall LoginResponseBody) (now_iso : String) :
    LoginOutcome × ChallengeStore × AuthStore :=
  match challenges address with
  | none => (.noChallenge, challenges, tokens)
  | some rec =>
    match rec.login with
    | none => (.exnError "TrustGo login failed: KeyError", challenges, tokens)
    | some ch =>
      if message ≠ ch.message then
        (.challengeMismatch, challenges, tokens)
      else
        match number with
        | none => (.missingNumber, challenges, tokens)
        | some n =>
          if n ≠ ch.expected_answer then
            (.incorrectNumber ch.expected_answer n, challenges, tokens)
          else
            let challenges' : ChallengeStore := fun a =>
              if a = address then none else challenges a
            match upstream with
            | .exn m => (.exnError ("TrustGo login failed: " ++ m), challenges', tokens)
            | .ok status body =>
              if status = 200 ∧ body.success then
                if body.token = "" then
                  (.signatureRejected address signature, challenges', tokens)
                else
                  let tokens' : AuthStore := fun a =>
                    if a = address then
                      some { trustgo_token := some body.token
                             trustgo_login_time := some now_iso }
                    else tokens a
                  (.loginSuccess address body.token message, challenges', tokens')
              else
                (.upstreamFailed ("TrustGo login failed: " ++ body.message.getD "Unknown error"),
                  challenges', tokens)

/-- The keys of the `type_mapping` dict. -/
def bubble_types : List String := ["price", "sigma_score", "mindshare"]

/-- Outcome of `query_ranked_bubbles`, one constructor per return. -/
inductive BubbleOutcome where
  | notAuthenticated
  | invalidType
  | bubbleSuccess (bubble_type : String) (data : JsonBody) (timestamp : String)
  | bubbleUpstreamFailed (msg : String)
  | bubbleExn (msg : String)

/-- The token lookup of `query_ranked_bubbles`: `trustgo_token` stays
`None` unless the resolved address is truthy and has an `auth_tokens`
entry, in which case it is that entry's `trustgo_token` key. -/
def storedToken (tokens : AuthStore) (query_address : String) : Option String :=
  if query_address = "" then none
  else
    match tokens query_address with
    | none => none
    | some rec => rec.trustgo_token

/-- The upstream phase of `query_ranked_bubbles`, reached only after
both gates pass. -/
def bubble_upstream_result (bubble_type : String) (upstream : UpstreamCall JsonBody)
    (now_iso : String) : BubbleOutcome :=
  match upstream with
  | .exn m => .bubbleExn ("Query failed: " ++ m)
  | .ok status body =>
    if status = 200 then
      .bubbleSuccess bubble_type body now_iso
    else
      .bubbleUpstreamFailed ("Failed to query ranked bubbles: " ++ body.message.getD "Unknown error")

/-- `query_ranked_bubbles`: the stored-token gate runs before the
bubble-type check; a missing address simply leaves `trustgo_token`
unset (`if not trustgo_token` also treats an empty token string as
absent), there is no separate address error. -/
def query_ranked_bubbles (tokens : AuthStore) (bubble_type : String)
    (address : Option String) (default_address : String)
    (upstream : UpstreamCall JsonBody) (now_iso : String) : BubbleOutcome :=
  let trustgo_token := storedToken tokens (resolveAddress address default_address)
  if trustgo_token = none ∨ trustgo_token = some "" then
    .notAuthenticated
  else if bubble_type ∉ bubble_types then
    .invalidType
  else
    bubble_upstream_result bubble_type upstream now_iso

/-- The social-binding message
`f"Using AgentGo to sign with twitter {address} code is {number}"`. -/
def twitterMessage (address : String) (number : Nat) : String :=
  "Using AgentGo to sign with twitter " ++ address ++ " code is " ++ natRepr number

/-- Outcome of `login_twitter` (its `try` body cannot fail). -/
inductive TwitterGenOutcome where
  | twSuccess (message : String) (number : Nat)

/-- `login_twitter`: the random 7-digit code is the parameter `number`.
Unlike the login generator, this writes only the `"twitter"` key of the
per-address record, preserving any login-challenge keys. -/
def login_twitter (challenges : ChallengeStore) (address : String) (number : Nat) :
    TwitterGenOutcome × ChallengeStore :=
  let message := twitterMessage address number
  let tw : TwitterChallenge := { message := message, number := number, user_screen_name := none }
  let challenges' : ChallengeStore := fun a =>
    if a = address then
      match challenges address with
      | none => some { login := none, twitter := some tw }
      | some rec => some { rec with twitter := some tw }
    else challenges a
  (.twSuccess message number, challenges')

/-- Outcome of `verify_twitter_signature`; `verifyExn` is the catch-all
`except` return, reached when no record or no `"twitter"` slot is stored
for the address (`KeyError`) or the fetched tweet has no author object
(`AttributeError`). -/
inductive VerifyOutcome where
  | mismatch (data : TweetData)
  | verified (data : TweetData) (user_screen_name : Option String)
  | verifyExn (msg : String)

/-- `verify_twitter_signature`: the fetched tweet is the parameter.
The stored challenge is compared, never deleted; on success the
`user_screen_name` key is written into the stored `"twitter"` slot. -/
def verify_twitter_signature (challenges : ChallengeStore) (address : String)
    (tweet : TweetData) : VerifyOutcome × ChallengeStore :=
  match challenges address with
  | none => (.verifyExn "Sign failed: KeyError", challenges)
  | some rec =>
    match rec.twitter with
    | none => (.verifyExn "Sign failed: KeyError", challenges)
    | some tw =>
      if tweet.text ≠ some tw.message then
        (.mismatch tweet, challenges)
      else
        match tweet.author with
        | none => (.verifyExn "Sign failed: AttributeError", challenges)
        | some a =>
          let tw' : TwitterChallenge := { tw with user_screen_name := a.screen_name }
          let challenges' : ChallengeStore := fun x =>
            if x = address then some { rec with twitter := some tw' } else challenges x
          (.verified tweet a.screen_name, challenges')

/-- The empty `challenge_storage`. -/
def emptyChallenges : ChallengeStore := fun _ => none

/-- The empty `auth_tokens`. -/
def emptyTokens : AuthStore := fun _ => none

/-- A sample stored login challenge, for concrete instantiations. -/
def cLogin : LoginChallenge :=
  { expected_answer := 42, timestamp := 7, message := loginMessage 7, challenge_created := "t0" }

/-- A sample stored social-binding challenge. -/
def cTwitter : TwitterChallenge :=
  { message := twitterMessage "0xA" 1234567, number := 1234567, user_screen_name := none }

/-- A sample `challenge_storage` record holding both slots. -/
def cRecord : ChallengeRecord := { login := some cLogin, twitter := some cTwitter }

/-- A sample challenge store with one populated address. -/
def cStore : ChallengeStore := fun a => if a = "0xA" then some cRecord else none

/-- A sample successful upstream login body with a non-empty token. -/
def cBody : LoginResponseBody := { success := true, token := "tok1", message := none }

/-- A sample successful upstream login body with an empty token. -/
def cBodyEmpty : LoginResponseBody := { success := true, token := "", message := none }

/-- A sample ranked-bubbles upstream body. -/
def cJson : JsonBody := { message := none, raw := "payload" }

/-- A sample session store with one authenticated address. -/
def cTokens : AuthStore := fun a =>
  if a = "0xB" then some { trustgo_token := some "tok2", trustgo_login_time := some "t1" }
  else none

/-- `digitCh` is injective on decimal digits. -/
theorem digitCh_lt_inj {a b : Nat} (ha : a < 10) (hb : b < 10)
    (h : digitCh a = digitCh b) : a = b := by
  interval_cases a <;> interval_cases b <;> revert h <;> decide

/-- Mapping `digitCh` over lists of decimal digits is injective. -/
theorem map_digitCh_inj : ∀ {l1 l2 : List Nat}, (∀ x ∈ l1, x < 10) → (∀ x ∈ l2, x < 10) →
    l1.map digitCh = l2.map digitCh → l1 = l2 := by
  intro l1
  induction l1 with
  | nil =>
    intro l2 _ _ h
    cases l2 with
    | nil => rfl
    | cons b t => simp at h
  | cons a t ih =>
    intro l2 h1 h2 h
    cases l2 with
    | nil => simp at h
    | cons b t2 =>
      simp only [List.map_cons, List.cons.injEq] at h
      have hab : a = b := digitCh_lt_inj (h1 a (by simp)) (h2 b (by simp)) h.1
      have ht : t = t2 :=
        ih (fun x hx => h1 x (by simp [hx])) (fun x hx => h2 x (by simp [hx])) h.2
      rw [hab, ht]

/-- Decimal rendering is injective: two distinct naturals print differently. -/
theorem natRepr_inj {m n : Nat} (h : natRepr m = natRepr n) : m = n := by
  have digitsLt : ∀ k, ∀ x ∈ Nat.digits 10 k, x < 10 := fun k x hx =>
    Nat.digits_lt_base (by norm_num) hx
  have zeroCase : ∀ k : Nat, k ≠ 0 →
      ("0" : String) ≠ ⟨((Nat.digits 10 k).map digitCh).reverse⟩ := by
    intro k hk hEq
    have h0 : ("0" : String).data = ['0'] := rfl
    have hd : (['0'] : List Char) = ((Nat.digits 10 k).map digitCh).reverse := by
      rw [← h0]
      exact congrArg String.data hEq
    have hrev : (Nat.digits 10 k).map digitCh = ['0'] := by
      have := congrArg List.reverse hd
      simpa using this.symm
    have : Nat.digits 10 k = [0] := by
      have h0 : (['0'] : List Char) = List.map digitCh [0] := by decide
      exact map_digitCh_inj (digitsLt k) (by decide) (hrev.trans h0)
    have : k = 0 := by
      have hk0 := Nat.ofDigits_digits 10 k
      rw [this] at hk0
      simpa [Nat.ofDigits] using hk0.symm
    exact hk this
  unfold natRepr at h
  by_cases hm : m = 0 <;> by_cases hn : n = 0
  · rw [hm, hn]
  · rw [if_pos hm, if_neg hn] at h
    exact absurd h (zeroCase n hn)
  · rw [if_neg hm, if_pos hn] at h
    exact absurd h.symm (zeroCase m hm)
  · rw [if_neg hm, if_neg hn] at h
    have hd : ((Nat.digits 10 m).map digitCh).reverse = ((Nat.digits 10 n).map digitCh).reverse :=
      congrArg String.data h
    have hmap : (Nat.digits 10 m).map digitCh = (Nat.digits 10 n).map digitCh :=
      List.reverse_injective hd
    have hdig : Nat.digits 10 m = Nat.digits 10 n :=
      map_digitCh_inj (digitsLt m) (digitsLt n) hmap
    exact Nat.digits_inj_iff.mp hdig

/-- Login messages built from distinct timestamps are distinct strings. -/
theorem loginMessage_inj {t1 t2 : Nat} (h : loginMessage t1 = loginMessage t2) : t1 = t2 := by
  unfold loginMessage at h
  have hd := congrArg String.data h
  simp only [String.data_append] at hd
  exact natRepr_inj (String.ext (List.append_cancel_left hd))

/-- Appending one character changes a string: used to exhibit a
one-character tampering of a stored message. -/
theorem append_x_ne (s : String) : s ++ "x" ≠ s := by
  intro h
  have hlen := congrArg String.length h
  rw [String.length_append] at hlen
  have hx : ("x" : String).length = 1 := rfl
  omega

/-- After all four local checks pass, the stored challenge for the
address is deleted, whatever the upstream exchange then answers. -/
theorem trustgo_login_pass_deletes
    (challenges : ChallengeStore) (tokens : AuthStore)
    (address signature : String)
    (upstream : UpstreamCall LoginResponseBody) (now_iso : String)
    (rec : ChallengeRecord) (ch : LoginChallenge)
    (hrec : challenges address = some rec) (hlogin : rec.login = some ch) :
    (trustgo_login challenges tokens address signature ch.message (some ch.expected_answer)
        upstream now_iso).2.1 =
      fun a => if a = address then none else challenges a := by
  cases upstream with
  | exn m => simp [trustgo_login, hrec, hlogin]
  | ok status body =>
    by_cases hs : status = 200 ∧ body.success
    · by_cases ht : body.token = ""
      · simp [trustgo_login, hrec, hlogin, hs, ht]
      · simp [trustgo_login, hrec, hlogin, hs, ht]
    · simp [trustgo_login, hrec, hlogin, hs]

/-- C1: the login challenge is single-use and consumed before the
upstream call.  When the stored challenge passes all four local checks
(challenge present, message equal, number present and equal to
`expected_answer`), `trustgo_login` deletes the stored challenge for
every possible upstream response — including a failed exchange — so a
second attempt with the same correct message and number answers the
no-challenge error. -/
theorem login_challenge_single_use
    (challenges : ChallengeStore) (tokens : AuthStore)
    (address signature signature' : String)
    (upstream upstream' : UpstreamCall LoginResponseBody) (now_iso now_iso' : String)
    (rec : ChallengeRecord) (ch : LoginChallenge)
    (hrec : challenges address = some rec) (hlogin : rec.login = some ch) :
    ((trustgo_login challenges tokens address signature ch.message (some ch.expected_answer)
        upstream now_iso).2.1 address = none) ∧
    ((trustgo_login
        (trustgo_login challenges tokens address signature ch.message (some ch.expected_answer)
          upstream now_iso).2.1
        (trustgo_login challenges tokens address signature ch.message (some ch.expected_answer)
          upstream now_iso).2.2
        address signature' ch.message (some ch.expected_answer) upstream' now_iso').1 =
      .noChallenge) := by
  have hstore := trustgo_login_pass_deletes challenges tokens address signature
    upstream now_iso rec ch hrec hlogin
  have hnone : (trustgo_login challenges tokens address signature ch.message
      (some ch.expected_answer) upstream now_iso).2.1 address = none := by
    rw [hstore]
    simp
  refine ⟨hnone, ?_⟩
  rw [hstore]
  simp [trustgo_login]

/-- C1 witness: a concrete run in which the upstream exchange fails,
followed by a second attempt with the same correct inputs. -/
theorem login_challenge_single_use_witness :
    ((trustgo_login cStore emptyTokens "0xA" "sig" cLogin.message (some cLogin.expected_answer)
        (.exn "connection reset") "t1").2.1 "0xA" = none) ∧
    ((trustgo_login
        (trustgo_login cStore emptyTokens "0xA" "sig" cLogin.message (some cLogin.expected_answer)
          (.exn "connection reset") "t1").2.1
        (trustgo_login cStore emptyTokens "0xA" "sig" cLogin.message (some cLogin.expected_answer)
          (.exn "connection reset") "t1").2.2
        "0xA" "sig" cLogin.message (some cLogin.expected_answer) (.exn "down again") "t2").1 =
      .noChallenge) :=
  login_challenge_single_use cStore emptyTokens "0xA" "sig" "sig"
    (.exn "connection reset") (.exn "down again") "t1" "t2" cRecord cLogin rfl rfl

/-- C2: `trustgo_login` checks its failure conditions in order and
short-circuits: no stored challenge → the no-challenge error; challenge
stored but echoed message differs → the challenge-mismatch error for
every value of `number`; message equal but `number` absent → the
missing-answer error; `number` present but different from the stored
`expected_answer` → the incorrect-answer error reporting the expected
value. -/
theorem trustgo_login_check_order
    (challenges : ChallengeStore) (tokens : AuthStore)
    (address signature message : String) (number : Option Int)
    (upstream : UpstreamCall LoginResponseBody) (now_iso : String)
    (rec : ChallengeRecord) (ch : LoginChallenge) :
    (challenges address = none →
      (trustgo_login challenges tokens address signature message number upstream now_iso).1 =
        .noChallenge) ∧
    (challenges address = some rec → rec.login = some ch → message ≠ ch.message →
      (trustgo_login challenges tokens address signature message number upstream now_iso).1 =
        .challengeMismatch) ∧
    (challenges address = some rec → rec.login = some ch → message = ch.message →
      number = none →
      (trustgo_login challenges tokens address signature message number upstream now_iso).1 =
        .missingNumber) ∧
    (∀ n : Int, challenges address = some rec → rec.login = some ch → message = ch.message →
      number = some n → n ≠ ch.expected_answer →
      (trustgo_login challenges tokens address signature message number upstream now_iso).1 =
        .incorrectNumber ch.expected_answer n) := by
  refine ⟨?_, ?_, ?_, ?_⟩
  · intro h
    simp [trustgo_login, h]
  · intro h1 h2 h3
    simp [trustgo_login, h1, h2, h3]
  · intro h1 h2 h3 h4
    simp [trustgo_login, h1, h2, h3, h4]
  · intro n h1 h2 h3 h4 h5
    simp [trustgo_login, h1, h2, h3, h4, h5]

/-- C2 witness: the four short-circuit errors, each at a concrete
input; in the mismatch case the supplied number is even the correct
answer and is never examined. -/
theorem trustgo_login_check_order_witness :
    ((trustgo_login cStore emptyTokens "0xZ" "sig" (loginMessage 7) (some 42)
        (.ok 200 cBody) "t1").1 = .noChallenge) ∧
    ((trustgo_login cStore emptyTokens "0xA" "sig" (loginMessage 8) (some 42)
        (.ok 200 cBody) "t1").1 = .challengeMismatch) ∧
    ((trustgo_login cStore emptyTokens "0xA" "sig" (loginMessage 7) none
        (.ok 200 cBody) "t1").1 = .missingNumber) ∧
    ((trustgo_login cStore emptyTokens "0xA" "sig" (loginMessage 7) (some 41)
        (.ok 200 cBody) "t1").1 = .incorrectNumber 42 41) := by
  refine ⟨?_, ?_, ?_, ?_⟩
  · exact (trustgo_login_check_order cStore emptyTokens "0xZ" "sig" (loginMessage 7) (some 42)
      (.ok 200 cBody) "t1" cRecord cLogin).1 rfl
  · exact (trustgo_login_check_order cStore emptyTokens "0xA" "sig" (loginMessage 8) (some 42)
      (.ok 200 cBody) "t1" cRecord cLogin).2.1 rfl rfl (by
        intro h
        exact absurd (loginMessage_inj h) (by decide))
  · exact (trustgo_login_check_order cStore emptyTokens "0xA" "sig" (loginMessage 7) none
      (.ok 200 cBody) "t1" cRecord cLogin).2.2.1 rfl rfl rfl rfl
  · exact (trustgo_login_check_order cStore emptyTokens "0xA" "sig" (loginMessage 7) (some 41)
      (.ok 200 cBody) "t1" cRecord cLogin).2.2.2 41 rfl rfl rfl rfl (by decide)

/-- C7: once the local checks pass, the upstream response decides the
outcome: a 200/success response with a non-empty token stores that token
with an acquisition timestamp under the address and returns success
carrying the token; a 200/success response with an empty (absent) token
returns the signature-rejected error and leaves the session store
untouched. -/
theorem trustgo_login_upstream_outcome
    (challenges : ChallengeStore) (tokens : AuthStore)
    (address signature : String) (now_iso : String)
    (rec : ChallengeRecord) (ch : LoginChallenge) (body : LoginResponseBody)
    (hrec : challenges address = some rec) (hlogin : rec.login = some ch)
    (hsucc : body.success = true) :
    (body.token ≠ "" →
      trustgo_login challenges tokens address signature ch.message (some ch.expected_answer)
          (.ok 200 body) now_iso =
        (.loginSuccess address body.token ch.message,
          fun a => if a = address then none else challenges a,
          fun a =>
            if a = address then
              some { trustgo_token := some body.token, trustgo_login_time := some now_iso }
            else tokens a)) ∧
    (body.token = "" →
      trustgo_login challenges tokens address signature ch.message (some ch.expected_answer)
          (.ok 200 body) now_iso =
        (.signatureRejected address signature,
          fun a => if a = address then none else challenges a,
          tokens)) := by
  constructor
  · intro ht
    simp [trustgo_login, hrec, hlogin, hsucc, ht]
  · intro ht
    simp [trustgo_login, hrec, hlogin, hsucc, ht]

/-- C7 witness: the two upstream-success cases at concrete inputs. -/
theorem trustgo_login_upstream_outcome_witness :
    (trustgo_login cStore emptyTokens "0xA" "sig" cLogin.message (some cLogin.expected_answer)
        (.ok 200 cBody) "t1" =
      (.loginSuccess "0xA" cBody.token cLogin.message,
        fun a => if a = "0xA" then none else cStore a,
        fun a =>
          if a = "0xA" then
            some { trustgo_token := some cBody.token, trustgo_login_time := some "t1" }
          else emptyTokens a)) ∧
    (trustgo_login cStore emptyTokens "0xA" "sig" cLogin.message (some cLogin.expected_answer)
        (.ok 200 cBodyEmpty) "t1" =
      (.signatureRejected "0xA" "sig",
        fun a => if a = "0xA" then none else cStore a,
        emptyTokens)) := by
  constructor
  · exact (trustgo_login_upstream_outcome cStore emptyTokens "0xA" "sig" "t1"
      cRecord cLogin cBody rfl rfl rfl).1 (by decide)
  · exact (trustgo_login_upstream_outcome cStore emptyTokens "0xA" "sig" "t1"
      cRecord cLogin cBodyEmpty rfl rfl rfl).2 rfl

/-- C10: every pre-upstream failure of `trustgo_login` is atomic — in
each of the four error cases (no challenge, message mismatch, missing
number, incorrect number) the returned stores are exactly the input
challenge store and session store, so an incorrect answer does not
consume the challenge and the caller can retry against it. -/
theorem trustgo_login_failure_atomic
    (challenges : ChallengeStore) (tokens : AuthStore)
    (address signature message : String) (number : Option Int)
    (upstream : UpstreamCall LoginResponseBody) (now_iso : String)
    (rec : ChallengeRecord) (ch : LoginChallenge) :
    (challenges address = none →
      trustgo_login challenges tokens address signature message number upstream now_iso =
        (.noChallenge, challenges, tokens)) ∧
    (challenges address = some rec → rec.login = some ch → message ≠ ch.message →
      trustgo_login challenges tokens address signature message number upstream now_iso =
        (.challengeMismatch, challenges, tokens)) ∧
    (challenges address = some rec → rec.login = some ch → message = ch.message →
      number = none →
      trustgo_login challenges tokens address signature message number upstream now_iso =
        (.missingNumber, challenges, tokens)) ∧
    (∀ n : Int, challenges address = some rec → rec.login = some ch → message = ch.message →
      number = some n → n ≠ ch.expected_answer →
      trustgo_login challenges tokens address signature message number upstream now_iso =
        (.incorrectNumber ch.expected_answer n, challenges, tokens)) := by
  refine ⟨?_, ?_, ?_, ?_⟩
  · intro h
    simp [trustgo_login, h]
  · intro h1 h2 h3
    simp [trustgo_login, h1, h2, h3]
  · intro h1 h2 h3 h4
    simp [trustgo_login, h1, h2, h3, h4]
  · intro n h1 h2 h3 h4 h5
    simp [trustgo_login, h1, h2, h3, h4, h5]

/-- C3: every challenge produced by `get_trustgo_login_message` stores
an `expected_answer` equal to `(num1 * num2) + (num3 ^ 2) - (num1 mod num3)`
recomputed from the three operands disclosed in the result, with `num1`
and `num2` in `[1000000, 9999999]` and `num3` in `[100, 999]`. -/
theorem login_puzzle_round_trip
    (challenges : ChallengeStore) (address : String) (hane : address ≠ "")
    (default_address : String) (ts n1 n2 n3 : Nat) (now_iso : String)
    (h1 : 1000000 ≤ n1) (h1' : n1 ≤ 9999999)
    (h2 : 1000000 ≤ n2) (h2' : n2 ≤ 9999999)
    (h3 : 100 ≤ n3) (h3' : n3 ≤ 999) :
    ∃ r : LoginMessageResult, ∃ ch : LoginChallenge,
      (get_trustgo_login_message challenges (some address) default_address ts n1 n2 n3 now_iso).1 =
        .genSuccess r ∧
      (get_trustgo_login_message challenges (some address) default_address ts n1 n2 n3 now_iso).2
          address = some { login := some ch, twitter := none } ∧
      1000000 ≤ r.num1 ∧ r.num1 ≤ 9999999 ∧
      1000000 ≤ r.num2 ∧ r.num2 ≤ 9999999 ∧
      100 ≤ r.num3 ∧ r.num3 ≤ 999 ∧
      ch.expected_answer =
        (r.num1 : Int) * (r.num2 : Int) + (r.num3 : Int) ^ 2 -
          (r.num1 : Int) % (r.num3 : Int) := by
  refine ⟨loginMessageResult ts n1 n2 n3, loginChallengeOf ts n1 n2 n3 now_iso,
    ?_, ?_, h1, h1', h2, h2', h3, h3', ?_⟩
  · simp [get_trustgo_login_message, resolveAddress, hane]
  · simp [get_trustgo_login_message, resolveAddress, hane]
  · simp [loginChallengeOf, loginMessageResult, expected_answer]

/-- C3 witness: the round trip at a concrete operand triple. -/
theorem login_puzzle_round_trip_witness :
    ∃ r : LoginMessageResult, ∃ ch : LoginChallenge,
      (get_trustgo_login_message emptyChallenges (some "0xA") "" 5 1000000 2000000 100 "t").1 =
        .genSuccess r ∧
      (get_trustgo_login_message emptyChallenges (some "0xA") "" 5 1000000 2000000 100 "t").2
          "0xA" = some { login := some ch, twitter := none } ∧
      1000000 ≤ r.num1 ∧ r.num1 ≤ 9999999 ∧
      1000000 ≤ r.num2 ∧ r.num2 ≤ 9999999 ∧
      100 ≤ r.num3 ∧ r.num3 ≤ 999 ∧
      ch.expected_answer =
        (r.num1 : Int) * (r.num2 : Int) + (r.num3 : Int) ^ 2 -
          (r.num1 : Int) % (r.num3 : Int) :=
  login_puzzle_round_trip emptyChallenges "0xA" (by decide) "" 5 1000000 2000000 100 "t"
    (by decide) (by decide) (by decide) (by decide) (by decide) (by decide)

/-- C8: a successful `get_trustgo_login_message` result discloses the
three operands and the fixed formula description, and the stored
`expected_answer` is not among any of the numbers it discloses: for
in-range operands the answer strictly exceeds every operand. -/
theorem expected_answer_not_disclosed
    (challenges : ChallengeStore) (address : String) (hane : address ≠ "")
    (default_address : String) (ts n1 n2 n3 : Nat) (now_iso : String)
    (h1 : 1000000 ≤ n1) (h1' : n1 ≤ 9999999)
    (h2 : 1000000 ≤ n2) (h2' : n2 ≤ 9999999)
    (h3 : 100 ≤ n3) (h3' : n3 ≤ 999) :
    ∃ r : LoginMessageResult, ∃ ch : LoginChallenge,
      (get_trustgo_login_message challenges (some address) default_address ts n1 n2 n3 now_iso).1 =
        .genSuccess r ∧
      (get_trustgo_login_message challenges (some address) default_address ts n1 n2 n3 now_iso).2
          address = some { login := some ch, twitter := none } ∧
      r.num1 = n1 ∧ r.num2 = n2 ∧ r.num3 = n3 ∧
      r.description = "Calculate: (num1 * num2) + (num3^2) - (num1 % num3)" ∧
      r.formula = formulaString n1 n2 n3 ∧
      (r.num1 : Int) < ch.expected_answer ∧
      (r.num2 : Int) < ch.expected_answer ∧
      (r.num3 : Int) < ch.expected_answer := by
  have c1 : (1000000 : Int) ≤ (n1 : Int) := by exact_mod_cast h1
  have c1' : (n1 : Int) ≤ 9999999 := by exact_mod_cast h1'
  have c2 : (1000000 : Int) ≤ (n2 : Int) := by exact_mod_cast h2
  have c2' : (n2 : Int) ≤ 9999999 := by exact_mod_cast h2'
  have c3 : (100 : Int) ≤ (n3 : Int) := by exact_mod_cast h3
  have c3' : (n3 : Int) ≤ 999 := by exact_mod_cast h3'
  have hp : (1000000 : Int) * 1000000 ≤ (n1 : Int) * n2 :=
    mul_le_mul c1 c2 (by linarith) (by linarith)
  have hm : (n1 : Int) % n3 < n3 := Int.emod_lt_of_pos _ (by linarith)
  have hsq : (0 : Int) ≤ (n3 : Int) ^ 2 := sq_nonneg _
  have hbig : (9999999 : Int) < expected_answer n1 n2 n3 := by
    unfold expected_answer
    linarith
  refine ⟨loginMessageResult ts n1 n2 n3, loginChallengeOf ts n1 n2 n3 now_iso,
    ?_, ?_, rfl, rfl, rfl, rfl, rfl, ?_, ?_, ?_⟩
  · simp [get_trustgo_login_message, resolveAddress, hane]
  · simp [get_trustgo_login_message, resolveAddress, hane]
  · exact lt_of_le_of_lt c1' hbig
  · exact lt_of_le_of_lt c2' hbig
  · exact lt_of_le_of_lt (by linarith : (n3 : Int) ≤ 9999999) hbig

/-- C8 witness: non-disclosure at a concrete operand triple. -/
theorem expected_answer_not_disclosed_witness :
    ∃ r : LoginMessageResult, ∃ ch : LoginChallenge,
      (get_trustgo_login_message emptyChallenges (some "0xB") "" 9 1234567 7654321 500 "t2").1 =
        .genSuccess r ∧
      (get_trustgo_login_message emptyChallenges (some "0xB") "" 9 1234567 7654321 500 "t2").2
          "0xB" = some { login := some ch, twitter := none } ∧
      r.num1 = 1234567 ∧ r.num2 = 7654321 ∧ r.num3 = 500 ∧
      r.description = "Calculate: (num1 * num2) + (num3^2) - (num1 % num3)" ∧
      r.formula = formulaString 1234567 7654321 500 ∧
      (r.num1 : Int) < ch.expected_answer ∧
      (r.num2 : Int) < ch.expected_answer ∧
      (r.num3 : Int) < ch.expected_answer :=
  expected_answer_not_disclosed emptyChallenges "0xB" (by decide) "" 9 1234567 7654321 500 "t2"
    (by decide) (by decide) (by decide) (by decide) (by decide) (by decide)

/-- C6 counterexample: the login message embeds only the Unix-second
timestamp, so two challenges issued within the same second share the
same message text.  At a concrete input — two generations for the same
address both at second 5, with different operands — a verification that
echoes the first challenge's message does not fail with the
challenge-mismatch error: it passes the message check against the
second challenge and, with the second puzzle's answer, succeeds. -/
theorem same_second_reissue_accepts_first_message :
    ((trustgo_login
        (get_trustgo_login_message
          (get_trustgo_login_message emptyChallenges (some "0xA") "" 5 1000000 2000000 100 "t1").2
          (some "0xA") "" 5 3000000 4000000 200 "t2").2
        emptyTokens "0xA" "sig" (loginMessage 5) (some (expected_answer 3000000 4000000 200))
        (.ok 200 cBody) "t3").1 ≠ .challengeMismatch) ∧
    ((trustgo_login
        (get_trustgo_login_message
          (get_trustgo_login_message emptyChallenges (some "0xA") "" 5 1000000 2000000 100 "t1").2
          (some "0xA") "" 5 3000000 4000000 200 "t2").2
        emptyTokens "0xA" "sig" (loginMessage 5) (some (expected_answer 3000000 4000000 200))
        (.ok 200 cBody) "t3").1 =
      .loginSuccess "0xA" cBody.token (loginMessage 5)) := by
  have hst : (get_trustgo_login_message
      (get_trustgo_login_message emptyChallenges (some "0xA") "" 5 1000000 2000000 100 "t1").2
      (some "0xA") "" 5 3000000 4000000 200 "t2").2 "0xA" =
      some { login := some (loginChallengeOf 5 3000000 4000000 200 "t2"), twitter := none } := by
    simp [get_trustgo_login_message, resolveAddress]
  constructor
  · simp [trustgo_login, hst, loginChallengeOf, cBody]
  · simp [trustgo_login, hst, loginChallengeOf, cBody]

/-- C6 amended: issuing a second login challenge for the same address
overwrites the first; and provided the second challenge is issued at a
different clock second — so that the two message texts differ — a
verification echoing the first challenge's message fails with the
challenge-mismatch error. -/
theorem second_challenge_invalidates_first
    (challenges : ChallengeStore) (tokens : AuthStore)
    (address signature : String) (hane : address ≠ "")
    (default_address : String) (ts1 ts2 n1 n2 n3 m1 m2 m3 : Nat)
    (now1 now2 now_iso : String) (number : Option Int)
    (upstream : UpstreamCall LoginResponseBody)
    (hts : ts1 ≠ ts2) :
    ((get_trustgo_login_message
        (get_trustgo_login_message challenges (some address) default_address ts1 n1 n2 n3 now1).2
        (some address) default_address ts2 m1 m2 m3 now2).2 address =
      some { login := some (loginChallengeOf ts2 m1 m2 m3 now2), twitter := none }) ∧
    ((trustgo_login
        (get_trustgo_login_message
          (get_trustgo_login_message challenges (some address) default_address ts1 n1 n2 n3 now1).2
          (some address) default_address ts2 m1 m2 m3 now2).2
        tokens address signature (loginMessage ts1) number upstream now_iso).1 =
      .challengeMismatch) := by
  have hmsg : loginMessage ts1 ≠ loginMessage ts2 := fun h => hts (loginMessage_inj h)
  have hst : (get_trustgo_login_message
      (get_trustgo_login_message challenges (some address) default_address ts1 n1 n2 n3 now1).2
      (some address) default_address ts2 m1 m2 m3 now2).2 address =
      some { login := some (loginChallengeOf ts2 m1 m2 m3 now2), twitter := none } := by
    simp [get_trustgo_login_message, resolveAddress, hane]
  refine ⟨hst, ?_⟩
  simp [trustgo_login, hst, loginChallengeOf, hmsg]

/-- C6 witness: two challenges issued at seconds 5 and 6, then a
verification that echoes the first message. -/
theorem second_challenge_invalidates_first_witness :
    ((get_trustgo_login_message
        (get_trustgo_login_message emptyChallenges (some "0xA") "" 5 1000000 2000000 100 "t1").2
        (some "0xA") "" 6 3000000 4000000 200 "t2").2 "0xA" =
      some { login := some (loginChallengeOf 6 3000000 4000000 200 "t2"), twitter := none }) ∧
    ((trustgo_login
        (get_trustgo_login_message
          (get_trustgo_login_message emptyChallenges (some "0xA") "" 5 1000000 2000000 100 "t1").2
          (some "0xA") "" 6 3000000 4000000 200 "t2").2
        emptyTokens "0xA" "sig" (loginMessage 5) (some (expected_answer 1000000 2000000 100))
        (.ok 200 cBody) "t3").1 =
      .challengeMismatch) :=
  second_challenge_invalidates_first emptyChallenges emptyTokens "0xA" "sig" (by decide)
    "" 5 6 1000000 2000000 100 3000000 4000000 200 "t1" "t2" "t3"
    (some (expected_answer 1000000 2000000 100)) (.ok 200 cBody) (by decide)

/-- C4 counterexample: at a concrete input, creating a login challenge
does not leave the stored social-binding challenge intact — the
`"twitter"` slot present before the call is gone afterwards, because
`get_trustgo_login_message` replaces the whole per-address record. -/
theorem login_gen_discards_twitter_slot :
    (((login_twitter emptyChallenges "0xA" 1234567).2 "0xA").map (fun r => r.twitter.isSome) =
      some true) ∧
    (((get_trustgo_login_message (login_twitter emptyChallenges "0xA" 1234567).2
          (some "0xA") "" 5 1000000 2000000 100 "t").2 "0xA").map (fun r => r.twitter.isSome) =
      some false) := by
  constructor <;> rfl

/-- C4 amended: the two flows share the per-address challenge record
but interact asymmetrically — creating a social-binding challenge
writes only the nested `"twitter"` slot and leaves any stored login
challenge intact, while creating a login challenge replaces the entire
per-address record and discards any stored social-binding challenge. -/
theorem challenge_slot_interaction
    (challenges : ChallengeStore) (address : String) (hane : address ≠ "")
    (default_address : String) (number ts n1 n2 n3 : Nat) (now_iso : String)
    (rec : ChallengeRecord) (hrec : challenges address = some rec) :
    ((login_twitter challenges address number).2 address =
      some { login := rec.login
             twitter := some { message := twitterMessage address number
                               number := number
                               user_screen_name := none } }) ∧
    ((get_trustgo_login_message challenges (some address) default_address ts n1 n2 n3 now_iso).2
        address = some { login := some (loginChallengeOf ts n1 n2 n3 now_iso), twitter := none }) := by
  constructor
  · simp [login_twitter, hrec]
  · simp [get_trustgo_login_message, resolveAddress, hane]

/-- C4 amended witness: both directions at a concrete populated record. -/
theorem challenge_slot_interaction_witness :
    ((login_twitter cStore "0xA" 7654321).2 "0xA" =
      some { login := cRecord.login
             twitter := some { message := twitterMessage "0xA" 7654321
                               number := 7654321
                               user_screen_name := none } }) ∧
    ((get_trustgo_login_message cStore (some "0xA") "" 5 1000000 2000000 100 "t").2 "0xA" =
      some { login := some (loginChallengeOf 5 1000000 2000000 100 "t"), twitter := none }) :=
  challenge_slot_interaction cStore "0xA" (by decide) "" 7654321 5 1000000 2000000 100 "t"
    cRecord rfl

/-- C5 counterexample: with no explicit address and no configured
default, `query_ranked_bubbles` answers the not-authenticated error —
the same outcome as an unauthenticated address — not a distinct
address-required error (the code has no such branch). -/
theorem no_address_not_distinct_error :
    (query_ranked_bubbles emptyTokens "price" none "" (.ok 200 cJson) "t" = .notAuthenticated) ∧
    (query_ranked_bubbles emptyTokens "price" none "" (.ok 200 cJson) "t" =
      query_ranked_bubbles emptyTokens "price" (some "0xD") "" (.ok 200 cJson) "t") := by
  constructor <;> rfl

/-- C5 amended: `query_ranked_bubbles` gates in order, but the first
gate reports the not-authenticated error rather than a dedicated
address error: an unresolvable address yields the not-authenticated
error; a resolvable address with no stored (or empty) login token
yields the not-authenticated error regardless of the dataset tag; an
authenticated address with a tag outside `price`/`sigma_score`/`mindshare`
yields the invalid-dataset error; only with both gates passed does the
upstream query determine the outcome. -/
theorem query_gate_order
    (tokens : AuthStore) (bubble_type : String) (address : Option String)
    (default_address : String) (upstream : UpstreamCall JsonBody) (now_iso : String) :
    (resolveAddress address default_address = "" →
      query_ranked_bubbles tokens bubble_type address default_address upstream now_iso =
        .notAuthenticated) ∧
    (storedToken tokens (resolveAddress address default_address) = none ∨
        storedToken tokens (resolveAddress address default_address) = some "" →
      query_ranked_bubbles tokens bubble_type address default_address upstream now_iso =
        .notAuthenticated) ∧
    (∀ t, storedToken tokens (resolveAddress address default_address) = some t → t ≠ "" →
      bubble_type ∉ bubble_types →
      query_ranked_bubbles tokens bubble_type address default_address upstream now_iso =
        .invalidType) ∧
    (∀ t, storedToken tokens (resolveAddress address default_address) = some t → t ≠ "" →
      bubble_type ∈ bubble_types →
      query_ranked_bubbles tokens bubble_type address default_address upstream now_iso =
        bubble_upstream_result bubble_type upstream now_iso) := by
  refine ⟨?_, ?_, ?_, ?_⟩
  · intro h
    simp [query_ranked_bubbles, h, storedToken]
  · intro h
    rcases h with h | h <;> simp [query_ranked_bubbles, h]
  · intro t ht ht' htype
    simp [query_ranked_bubbles, ht, ht', htype]
  · intro t ht ht' htype
    simp [query_ranked_bubbles, ht, ht', htype]

/-- C5 amended witness: the four gate outcomes at concrete inputs —
no address, unauthenticated address, authenticated address with the
invalid tag `volume`, and authenticated address with the valid tag
`price`. -/
theorem query_gate_order_witness :
    (query_ranked_bubbles cTokens "price" none "" (.ok 200 cJson) "t" = .notAuthenticated) ∧
    (query_ranked_bubbles cTokens "price" (some "0xC") "" (.ok 200 cJson) "t" =
      .notAuthenticated) ∧
    (query_ranked_bubbles cTokens "volume" (some "0xB") "" (.ok 200 cJson) "t" =
      .invalidType) ∧
    (query_ranked_bubbles cTokens "price" (some "0xB") "" (.ok 200 cJson) "t" =
      bubble_upstream_result "price" (.ok 200 cJson) "t") := by
  refine ⟨?_, ?_, ?_, ?_⟩
  · exact (query_gate_order cTokens "price" none "" (.ok 200 cJson) "t").1 rfl
  · exact (query_gate_order cTokens "price" (some "0xC") "" (.ok 200 cJson) "t").2.1
      (Or.inl rfl)
  · exact (query_gate_order cTokens "volume" (some "0xB") "" (.ok 200 cJson) "t").2.2.1
      "tok2" rfl (by decide) (by decide)
  · exact (query_gate_order cTokens "price" (some "0xB") "" (.ok 200 cJson) "t").2.2.2
      "tok2" rfl (by decide) (by decide)

/-- C9: `verify_twitter_signature` compares the fetched text with the
stored social-binding message exactly and never consumes the challenge:
any difference yields the verification-mismatch error with the store
untouched; on an exact match the poster's screen name is recorded into
the stored challenge — whose message and code stay in place — and the
call returns success with that screen name, so re-verification with the
same tweet succeeds again. -/
theorem verify_twitter_exact_and_not_consumed
    (challenges : ChallengeStore) (address : String)
    (rec : ChallengeRecord) (tw : TwitterChallenge) (tweet : TweetData)
    (hrec : challenges address = some rec) (htw : rec.twitter = some tw) :
    (∀ t, tweet.text = some t → t ≠ tw.message →
      verify_twitter_signature challenges address tweet = (.mismatch tweet, challenges)) ∧
    (∀ a, tweet.text = some tw.message → tweet.author = some a →
      verify_twitter_signature challenges address tweet =
        (.verified tweet a.screen_name,
          fun x =>
            if x = address then
              some { rec with twitter := some { tw with user_screen_name := a.screen_name } }
            else challenges x)) ∧
    (∀ a, tweet.text = some tw.message → tweet.author = some a →
      (verify_twitter_signature
          (verify_twitter_signature challenges address tweet).2 address tweet).1 =
        .verified tweet a.screen_name) := by
  refine ⟨?_, ?_, ?_⟩
  · intro t ht hne
    simp [verify_twitter_signature, hrec, htw, ht, hne]
  · intro a ht ha
    simp [verify_twitter_signature, hrec, htw, ht, ha]
  · intro a ht ha
    simp [verify_twitter_signature, hrec, htw, ht, ha]

/-- C9 witness: a one-character text difference fails and leaves the
store unchanged; the exact text succeeds, records the screen name, and
verifies again on the updated store. -/
theorem verify_twitter_exact_and_not_consumed_witness :
    (verify_twitter_signature cStore "0xA"
        { text := some (twitterMessage "0xA" 1234567 ++ "x")
          author := some { screen_name := some "alice" } } =
      (.mismatch { text := some (twitterMessage "0xA" 1234567 ++ "x")
                   author := some { screen_name := some "alice" } }, cStore)) ∧
    (verify_twitter_signature cStore "0xA"
        { text := some (twitterMessage "0xA" 1234567)
          author := some { screen_name := some "alice" } } =
      (.verified { text := some (twitterMessage "0xA" 1234567)
                   author := some { screen_name := some "alice" } } (some "alice"),
        fun x =>
          if x = "0xA" then
            some { cRecord with twitter := some { cTwitter with user_screen_name := some "alice" } }
          else cStore x)) ∧
    ((verify_twitter_signature
        (verify_twitter_signature cStore "0xA"
          { text := some (twitterMessage "0xA" 1234567)
            author := some { screen_name := some "alice" } }).2 "0xA"
        { text := some (twitterMessage "0xA" 1234567)
          author := some { screen_name := some "alice" } }).1 =
      .verified { text := some (twitterMessage "0xA" 1234567)
                  author := some { screen_name := some "alice" } } (some "alice")) := by
  refine ⟨?_, ?_, ?_⟩
  · exact (verify_twitter_exact_and_not_consumed cStore "0xA" cRecord cTwitter
      { text := some (twitterMessage "0xA" 1234567 ++ "x")
        author := some { screen_name := some "alice" } } rfl rfl).1
      (twitterMessage "0xA" 1234567 ++ "x") rfl (append_x_ne (twitterMessage "0xA" 1234567))
  · exact (verify_twitter_exact_and_not_consumed cStore "0xA" cRecord cTwitter
      { text := some (twitterMessage "0xA" 1234567)
        author := some { screen_name := some "alice" } } rfl rfl).2.1
      { screen_name := some "alice" } rfl rfl
  · exact (verify_twitter_exact_and_not_consumed cStore "0xA" cRecord cTwitter
      { text := some (twitterMessage "0xA" 1234567)
        author := some { screen_name := some "alice" } } rfl rfl).2.2
      { screen_name := some "alice" } rfl rfl

/-- C10 witness: the four pre-upstream errors at concrete inputs, each
leaving both stores untouched. -/
theorem trustgo_login_failure_atomic_witness :
    (trustgo_login cStore cTokens "0xZ" "sig" (loginMessage 7) (some 42)
        (.ok 200 cBody) "t1" = (.noChallenge, cStore, cTokens)) ∧
    (trustgo_login cStore cTokens "0xA" "sig" (loginMessage 8) (some 42)
        (.ok 200 cBody) "t1" = (.challengeMismatch, cStore, cTokens)) ∧
    (trustgo_login cStore cTokens "0xA" "sig" (loginMessage 7) none
        (.ok 200 cBody) "t1" = (.missingNumber, cStore, cTokens)) ∧
    (trustgo_login cStore cTokens "0xA" "sig" (loginMessage 7) (some 41)
        (.ok 200 cBody) "t1" = (.incorrectNumber 42 41, cStore, cTokens)) := by
  refine ⟨?_, ?_, ?_, ?_⟩
  · exact (trustgo_login_failure_atomic cStore cTokens "0xZ" "sig" (loginMessage 7) (some 42)
      (.ok 200 cBody) "t1" cRecord cLogin).1 rfl
  · exact (trustgo_login_failure_atomic cStore cTokens "0xA" "sig" (loginMessage 8) (some 42)
      (.ok 200 cBody) "t1" cRecord cLogin).2.1 rfl rfl (by
        intro h
        exact absurd (loginMessage_inj h) (by decide))
  · exact (trustgo_login_failure_atomic cStore cTokens "0xA" "sig" (loginMessage 7) none
      (.ok 200 cBody) "t1" cRecord cLogin).2.2.1 rfl rfl rfl rfl
  · exact (trustgo_login_failure_atomic cStore cTokens "0xA" "sig" (loginMessage 7) (some 41)
      (.ok 200 cBody) "t1" cRecord cLogin).2.2.2 41 rfl rfl rfl rfl (by decide)

end AgentGo
